import Mathlib

/-!
Shallow embedding of the nesacsv converter.

The repository holds two variants of the same converter:
* `Nesa2csv` — the recency-filtering variant (`nesa2csv.go`): nested
  measurement table, `zeroPad`, station-ID zero stripping, timestamp
  parsing against a cutoff, and normalization of the literal `*`.
* `Part000` — the non-filtering variant (`src/unnamed/part_000`): nested
  measurement table, `zeroPad`, station-ID zero stripping, no timestamp
  parsing, values stored verbatim, and a header row written in
  `processFile`.

Machine model: Go strings are Lean `String`s; `len` on a Go string is the
UTF-8 byte count, so it is modelled with `String.utf8ByteSize`. Go maps
`map[string]string` are association lists where insertion prepends and
lookup takes the first hit (last write wins, like a map). A Go panic
(out-of-range slice index) is modelled by `Option.none` propagating out of
the affected function.
-/

/-- A wall-clock time as produced by Go's `time.Parse` on the layout
`2006-01-02T15:04:05`: six numeric components, interpreted in UTC. -/
structure GoTime where
  year : Nat
  month : Nat
  day : Nat
  hour : Nat
  minute : Nat
  second : Nat
deriving Repr, DecidableEq

namespace GoTime

/-- Modelled from Go's `time.Time.Before`: for two times in the same
location obtained from the layout above, `Before` is the strict
lexicographic order on the six components. -/
def before (a b : GoTime) : Bool :=
  if a.year ≠ b.year then decide (a.year < b.year)
  else if a.month ≠ b.month then decide (a.month < b.month)
  else if a.day ≠ b.day then decide (a.day < b.day)
  else if a.hour ≠ b.hour then decide (a.hour < b.hour)
  else if a.minute ≠ b.minute then decide (a.minute < b.minute)
  else decide (a.second < b.second)

end GoTime

/-- Leap-year rule of the proleptic Gregorian calendar, as used by Go's
`time` package. -/
def isLeapYear (y : Nat) : Bool :=
  y % 4 == 0 && (y % 100 != 0 || y % 400 == 0)

/-- Number of days in a month, as used by Go's `time` package to validate
the day component of a parsed date. -/
def daysInMonth (y m : Nat) : Nat :=
  if m = 2 then (if isLeapYear y then 29 else 28)
  else if m = 4 ∨ m = 6 ∨ m = 9 ∨ m = 11 then 30
  else 31

/-- Numeric value of a decimal digit character. -/
def digitVal (c : Char) : Nat := c.toNat - 48

/-- Modelled from Go's `time.Parse` with the fixed layout
`2006-01-02T15:04:05`: the value must be exactly four digits, `-`, two
digits, `-`, two digits, `T`, two digits, `:`, two digits, `:`, two
digits, with month in 1..12, day in 1..daysInMonth, hour in 0..23, and
minute and second in 0..59; anything else is a parse error (`none`). -/
def goTimeParse (s : String) : Option GoTime :=
  match s.toList with
  | [y1, y2, y3, y4, a1, m1, m2, a2, d1, d2, a3, h1, h2, a4, n1, n2, a5, s1, s2] =>
    if a1 = '-' ∧ a2 = '-' ∧ a3 = 'T' ∧ a4 = ':' ∧ a5 = ':' ∧
        y1.isDigit ∧ y2.isDigit ∧ y3.isDigit ∧ y4.isDigit ∧
        m1.isDigit ∧ m2.isDigit ∧ d1.isDigit ∧ d2.isDigit ∧
        h1.isDigit ∧ h2.isDigit ∧ n1.isDigit ∧ n2.isDigit ∧
        s1.isDigit ∧ s2.isDigit then
      let y := ((digitVal y1 * 10 + digitVal y2) * 10 + digitVal y3) * 10 + digitVal y4
      let mo := digitVal m1 * 10 + digitVal m2
      let d := digitVal d1 * 10 + digitVal d2
      let h := digitVal h1 * 10 + digitVal h2
      let mi := digitVal n1 * 10 + digitVal n2
      let se := digitVal s1 * 10 + digitVal s2
      if 1 ≤ mo ∧ mo ≤ 12 ∧ 1 ≤ d ∧ d ≤ daysInMonth y mo ∧
          h ≤ 23 ∧ mi ≤ 59 ∧ se ≤ 59 then
        some ⟨y, mo, d, h, mi, se⟩
      else
        none
    else
      none
  | _ => none

/-- A single data entry (`type Record struct` — identical in both
variants). `Values` models the Go `map[string]string`. -/
structure Record where
  StationID : String
  Timestamp : String
  Values : List (String × String)
deriving Repr, DecidableEq

/-- Go `record.Values[param]` on a possibly-missing key: the zero value
`""` when the key is absent. -/
def mapGetD (m : List (String × String)) (k : String) : String :=
  (List.lookup k m).getD ""

/-- `zeroPad` — pads single-digit numbers with a leading zero (identical
in both variants; Go `len` is the byte length). -/
def zeroPad (num : String) : String :=
  if num.utf8ByteSize = 1 then "0" ++ num else num

/-- An input file as the scanner sees it: the lines `bufio.Scanner`
delivers, and whether the scan ends with a read error (`scanner.Err`). -/
structure GoFile where
  lines : List String
  readErr : Bool
deriving Repr, DecidableEq

/-- Split a character list at every comma, keeping empty pieces; on an
empty input the result is the single empty piece, as in Go. -/
def splitCommaChars : List Char → List (List Char)
  | [] => [[]]
  | c :: rest =>
    if c = ',' then [] :: splitCommaChars rest
    else
      match splitCommaChars rest with
      | g :: gs => (c :: g) :: gs
      | [] => [[c]]

/-- Modelled from Go's `strings.Split(line, ",")`: the comma is a
single-byte separator, so byte-wise splitting coincides with
character-wise splitting. -/
def goSplitComma (s : String) : List String :=
  (splitCommaChars s.toList).map (fun g => String.mk g)

/-- Modelled from Go's `strings.HasPrefix(line, "S,")`: both prefix
characters are single-byte, so the byte-prefix test coincides with the
character-prefix test. -/
def hasPrefixSComma (line : String) : Bool :=
  List.isPrefixOf ['S', ','] line.toList

/-- Modelled from Go's `strings.TrimLeft(s, "0")`: drop the leading run
of `0` characters. -/
def trimLeftZeros (s : String) : String :=
  String.mk (s.toList.dropWhile (fun c => c == '0'))

namespace Nesa2csv

/-- The static measurement table of the filtering variant
(`nesa2csv.go`): measurement ID, then processing ID, to parameter name. -/
def measurementMap : List (String × List (String × String)) :=
  [ ("1", [("2", "Temperature_Avg"), ("3", "Temperature_Min"), ("4", "Temperature_Max")]),
    ("2", [("2", "Humidity_Avg"), ("3", "Humidity_Min"), ("4", "Humidity_Max")]),
    ("9", [("2", "Windspeed_Avg"), ("3", "Windspeed_Min"), ("4", "Windspeed_Max")]),
    ("4", [("2", "Wind Direction_Avg"), ("3", "Wind Direction_Min"), ("4", "Wind Direction_Max")]),
    ("13", [("2", "Pressure_Avg"), ("3", "Pressure_Min"), ("4", "Pressure_Max")]),
    ("10", [("7", "Rainfall_Acc")]),
    ("51", [("2", "Soiltemperature10_Avg")]),
    ("101", [("2", "Soiltemperature20_Avg")]),
    ("151", [("2", "Soiltemperature50_Avg")]),
    ("201", [("2", "Soiltemperature100_Avg")]) ]

/-- Required measurements of the filtering variant, fixing the CSV column
order. -/
def requiredMeasurements : List String :=
  [ "Temperature_Avg", "Humidity_Avg", "Windspeed_Avg", "Wind Direction_Avg",
    "Pressure_Avg", "Rainfall_Acc", "Windspeed_Max", "Soiltemperature10_Avg",
    "Soiltemperature20_Avg", "Soiltemperature50_Avg", "Soiltemperature100_Avg" ]

/-- The two-stage lookup inside the measurement loop: measurement ID in
`measurementMap`, then processing ID in the nested table. -/
def lookupMeasurement (measurementID processingID : String) : Option String :=
  match List.lookup measurementID measurementMap with
  | some processingMap => List.lookup processingID processingMap
  | none => none

/-- The stride-3 measurement loop of `parseRow` in the filtering variant:
`for i := 8; i < len(fields)-1; i += 3`, reading
`(fields[i], fields[i+1], fields[i+2])`, dropping unknown IDs, replacing a
value of `*` by the empty string, and storing into the values map.
`none` models a Go panic from an out-of-range index. -/
def loopValues (fields : List String) (i : Nat) (values : List (String × String)) :
    Option (List (String × String)) :=
  if h : i < fields.length - 1 then
    match fields.get? i, fields.get? (i + 1) with
    | some measurementID, some processingID =>
      let measurementName := (lookupMeasurement measurementID processingID).getD ""
      if measurementName ≠ "" ∧ i + 2 < fields.length then
        match fields.get? (i + 2) with
        | some value => loopValues fields (i + 3)
            ((measurementName, if value == "*" then "" else value) :: values)
        | none => none
      else
        loopValues fields (i + 3) values
    | _, _ => none
  else
    some values
termination_by fields.length - i
decreasing_by all_goals omega

/-- `parseRow` of the filtering variant: split on commas, reject rows of
fewer than 7 fields, strip leading zeros from the station ID, zero-pad
and assemble the timestamp, parse it, return the too-old sentinel when it
precedes the cutoff, and collect the measurement values. The outer `none`
models the Go panic when `fields[7]` (or a loop index) is out of range. -/
def parseRow (line : String) (cutoff : GoTime) : Option (Except String Record) :=
  let fields := goSplitComma line
  if fields.length < 7 then
    some (Except.error ("invalid row: " ++ line))
  else
    match fields.get? 7 with
    | none => none
    | some year =>
      let stationID := trimLeftZeros (fields.getD 1 "")
      let hour := zeroPad (fields.getD 2 "")
      let minute := zeroPad (fields.getD 3 "")
      let second := zeroPad (fields.getD 4 "")
      let day := zeroPad (fields.getD 5 "")
      let month := zeroPad (fields.getD 6 "")
      let timestampStr := year ++ "-" ++ month ++ "-" ++ day ++ "T" ++ hour ++ ":" ++ minute ++ ":" ++ second
      match goTimeParse timestampStr with
      | none => some (Except.error ("invalid timestamp: " ++ timestampStr))
      | some recordTime =>
        if recordTime.before cutoff then
          some (Except.ok { StationID := "", Timestamp := "", Values := [] })
        else
          match loopValues fields 8 [] with
          | none => none
          | some values =>
            some (Except.ok { StationID := stationID, Timestamp := timestampStr, Values := values })

/-- Projection of a record onto the required-columns order:
`[stationID, timestamp]` followed by `record.Values[param]` for each
required measurement (missing keys serialize as `""`). -/
def emitRow (record : Record) : List String :=
  record.StationID :: record.Timestamp :: requiredMeasurements.map (fun param => mapGetD record.Values param)

/-- One iteration of the scanner loop of `processFile` in the filtering
variant, parametrized by the row parser it hands the line to. Outer
`none` is a panic; `some none` means the line produced no CSV row (prefix
mismatch, parse error logged and skipped, or too-old sentinel);
`some (some row)` is the CSV row written for the line. -/
def lineStep (parse : String → Option (Except String Record)) (line : String) :
    Option (Option (List String)) :=
  if hasPrefixSComma line then
    match parse line with
    | none => none
    | some (Except.error _) => some none
    | some (Except.ok record) =>
      if record.Timestamp = "" then some none
      else some (some (emitRow record))
  else
    some none

/-- The scanner loop of `processFile` in the filtering variant over the
lines of a file: the CSV rows written, in order (`none` = panic). -/
def scanLines (cutoff : GoTime) : List String → Option (List (List String))
  | [] => some []
  | line :: rest =>
    match lineStep (fun l => parseRow l cutoff) line with
    | none => none
    | some none => scanLines cutoff rest
    | some (some row) =>
      match scanLines cutoff rest with
      | none => none
      | some rows => some (row :: rows)

/-- `processFile` of the filtering variant. The input is `none` when
`os.Open` fails. The `writeHeader` parameter is accepted but never used,
exactly as in the source. Result: the rows written to the CSV writer and
whether the call returned an error (`none` = panic). -/
def processFile (cutoff : GoTime) (f : Option GoFile) (writeHeader : Bool) :
    Option (List (List String) × Bool) :=
  match f with
  | none => some ([], true)
  | some file =>
    match scanLines cutoff file.lines with
    | none => none
    | some rows => some (rows, file.readErr)

/-- The driver loop of `main` in the filtering variant over the qualifying
files, threading the header flag: after a file processed without error the
flag is cleared, after an error it is kept. -/
def walkFiles (cutoff : GoTime) : List (Option GoFile) → Bool → Option (List (List String))
  | [], _ => some []
  | f :: fs, writeHeader =>
    match processFile cutoff f writeHeader with
    | none => none
    | some (rows, fileErr) =>
      match walkFiles cutoff fs (if fileErr then writeHeader else false) with
      | none => none
      | some rest => some (rows ++ rest)

/-- A whole run of the filtering variant: the rows the CSV writer receives
across all files, with the header flag initially set. -/
def runFiles (cutoff : GoTime) (files : List (Option GoFile)) : Option (List (List String)) :=
  walkFiles cutoff files true

end Nesa2csv

namespace Part000

/-- The static measurement table of the non-filtering variant
(`src/unnamed/part_000`). -/
def measurementMap : List (String × List (String × String)) :=
  [ ("1", [("2", "Temperature_Avg"), ("3", "Temperature_Min"), ("4", "Temperature_Max")]),
    ("2", [("2", "Humidity_Avg"), ("3", "Humidity_Min"), ("4", "Humidity_Max")]),
    ("9", [("2", "Windspeed_Avg"), ("3", "Windspeed_Min"), ("4", "Windspeed_Max")]),
    ("4", [("2", "Wind Direction_Avg"), ("3", "Wind Direction_Min"), ("4", "Wind Direction_Max")]),
    ("13", [("2", "Pressure_Avg"), ("3", "Pressure_Min"), ("4", "Pressure_Max")]) ]

/-- Required measurements of the non-filtering variant. -/
def requiredMeasurements : List String :=
  [ "Temperature_Avg", "Humidity_Avg", "Windspeed_Avg", "Wind Direction_Avg", "Pressure_Avg" ]

/-- Two-stage measurement lookup of the non-filtering variant. -/
def lookupMeasurement (measurementID processingID : String) : Option String :=
  match List.lookup measurementID measurementMap with
  | some processingMap => List.lookup processingID processingMap
  | none => none

/-- The stride-3 measurement loop of `parseRow` in the non-filtering
variant: like the filtering one but the value is stored verbatim (no `*`
normalization). `none` models a Go panic from an out-of-range index. -/
def loopValues (fields : List String) (i : Nat) (values : List (String × String)) :
    Option (List (String × String)) :=
  if h : i < fields.length - 1 then
    match fields.get? i, fields.get? (i + 1) with
    | some measurementID, some processingID =>
      let measurementName := (lookupMeasurement measurementID processingID).getD ""
      if measurementName ≠ "" ∧ i + 2 < fields.length then
        match fields.get? (i + 2) with
        | some value => loopValues fields (i + 3) ((measurementName, value) :: values)
        | none => none
      else
        loopValues fields (i + 3) values
    | _, _ => none
  else
    some values
termination_by fields.length - i
decreasing_by all_goals omega

/-- `parseRow` of the non-filtering variant: no timestamp validation and
no cutoff; the timestamp string is assembled and stored as-is. The outer
`none` models the Go panic when `fields[7]` is out of range. -/
def parseRow (line : String) : Option (Except String Record) :=
  let fields := goSplitComma line
  if fields.length < 7 then
    some (Except.error ("invalid row: " ++ line))
  else
    match fields.get? 7 with
    | none => none
    | some year =>
      let stationID := trimLeftZeros (fields.getD 1 "")
      let hour := zeroPad (fields.getD 2 "")
      let minute := zeroPad (fields.getD 3 "")
      let second := zeroPad (fields.getD 4 "")
      let day := zeroPad (fields.getD 5 "")
      let month := zeroPad (fields.getD 6 "")
      let timestamp := year ++ "-" ++ month ++ "-" ++ day ++ "T" ++ hour ++ ":" ++ minute ++ ":" ++ second
      match loopValues fields 8 [] with
      | none => none
      | some values =>
        some (Except.ok { StationID := stationID, Timestamp := timestamp, Values := values })

/-- Projection of a record onto the required-columns order of the
non-filtering variant. -/
def emitRow (record : Record) : List String :=
  record.StationID :: record.Timestamp :: requiredMeasurements.map (fun param => mapGetD record.Values param)

/-- One iteration of the scanner loop of `processFile` in the
non-filtering variant (no too-old sentinel check), parametrized by the
row parser. -/
def lineStep (parse : String → Option (Except String Record)) (line : String) :
    Option (Option (List String)) :=
  if hasPrefixSComma line then
    match parse line with
    | none => none
    | some (Except.error _) => some none
    | some (Except.ok record) => some (some (emitRow record))
  else
    some none

/-- The scanner loop of `processFile` in the non-filtering variant. -/
def scanLines : List String → Option (List (List String))
  | [] => some []
  | line :: rest =>
    match lineStep parseRow line with
    | none => none
    | some none => scanLines rest
    | some (some row) =>
      match scanLines rest with
      | none => none
      | some rows => some (row :: rows)

/-- The header row of the non-filtering variant:
`station_id, timestamp, <required measurements>`. -/
def headerRow : List String :=
  "station_id" :: "timestamp" :: requiredMeasurements

/-- `processFile` of the non-filtering variant: after a successful open,
the header row is written first whenever `writeHeader` is set, then the
scanned data rows. -/
def processFile (f : Option GoFile) (writeHeader : Bool) :
    Option (List (List String) × Bool) :=
  match f with
  | none => some ([], true)
  | some file =>
    let headerRows := if writeHeader then [headerRow] else []
    match scanLines file.lines with
    | none => none
    | some rows => some (headerRows ++ rows, file.readErr)

/-- The driver loop of `main` in the non-filtering variant. -/
def walkFiles : List (Option GoFile) → Bool → Option (List (List String))
  | [], _ => some []
  | f :: fs, writeHeader =>
    match processFile f writeHeader with
    | none => none
    | some (rows, fileErr) =>
      match walkFiles fs (if fileErr then writeHeader else false) with
      | none => none
      | some rest => some (rows ++ rest)

/-- A whole run of the non-filtering variant. -/
def runFiles (files : List (Option GoFile)) : Option (List (List String)) :=
  walkFiles files true

end Part000

/-- The timestamp assembly of `parseRow`, factored out for specification:
`fmt.Sprintf("%s-%s-%sT%s:%s:%s", year, month, day, hour, minute, second)`
with the zero-padded components drawn from their fixed field positions. -/
def assembleTimestamp (fields : List String) : String :=
  fields.getD 7 "" ++ "-" ++ zeroPad (fields.getD 6 "") ++ "-" ++ zeroPad (fields.getD 5 "") ++ "T" ++
    zeroPad (fields.getD 2 "") ++ ":" ++ zeroPad (fields.getD 3 "") ++ ":" ++ zeroPad (fields.getD 4 "")

deriving instance DecidableEq for Except

/-- C10: `zeroPad` leaves every two-byte string unchanged (in particular
`"05"`), and is therefore idempotent on every string of at least two
bytes. -/
theorem zeroPad_two_digit_fixed_and_idempotent :
    (∀ s : String, s.utf8ByteSize = 2 → zeroPad s = s) ∧
    zeroPad "05" = "05" ∧
    (∀ s : String, 2 ≤ s.utf8ByteSize → zeroPad (zeroPad s) = zeroPad s) := by
  refine ⟨fun s h => ?_, by decide, fun s h => ?_⟩
  · unfold zeroPad
    rw [if_neg (by omega)]
  · have hzs : zeroPad s = s := by
      unfold zeroPad
      rw [if_neg (by omega)]
    rw [hzs]
    exact hzs

/-- Witness for C10 at the concrete input `"05"`. -/
theorem zeroPad_two_digit_fixed_and_idempotent_witness :
    zeroPad (zeroPad "05") = zeroPad "05" :=
  zeroPad_two_digit_fixed_and_idempotent.2.2 "05" (by decide)

/-- C2: the line `"S,1,2,3,4,5,6"` has exactly 7 comma-separated fields,
so the `len(fields) < 7` guard passes, and the subsequent read of the
year at index 7 is out of range: in both variants `parseRow` panics
(modelled as `none`) instead of returning the invalid-row error. -/
theorem seven_field_row_panics_on_year_read :
    (∀ cutoff : GoTime, Nesa2csv.parseRow "S,1,2,3,4,5,6" cutoff = none) ∧
    Part000.parseRow "S,1,2,3,4,5,6" = none := by
  have hs : goSplitComma "S,1,2,3,4,5,6" = ["S", "1", "2", "3", "4", "5", "6"] := by decide
  constructor
  · intro cutoff
    rw [Nesa2csv.parseRow]
    simp [hs]
  · rw [Part000.parseRow]
    simp [hs]

/-- C8: a line that does not start with `S,` makes the per-line step of
`processFile` yield no row, no panic and no error, and the result does
not depend on the row parser at all — the parser is never invoked. -/
theorem non_prefixed_line_never_parsed (line : String)
    (h : hasPrefixSComma line = false) :
    (∀ parse, Nesa2csv.lineStep parse line = some none) ∧
    (∀ parse, Part000.lineStep parse line = some none) := by
  constructor <;> intro parse
  · rw [Nesa2csv.lineStep, if_neg (by simp [h])]
  · rw [Part000.lineStep, if_neg (by simp [h])]

/-- Witness for C8 at the concrete line `"X,1,2"`, with the real parsers
of both variants. -/
theorem non_prefixed_line_never_parsed_witness :
    Nesa2csv.lineStep (fun l => Nesa2csv.parseRow l ⟨2000, 1, 1, 0, 0, 0⟩) "X,1,2" = some none ∧
    Part000.lineStep Part000.parseRow "X,1,2" = some none :=
  ⟨(non_prefixed_line_never_parsed "X,1,2" (by decide)).1 _,
   (non_prefixed_line_never_parsed "X,1,2" (by decide)).2 _⟩

/-- C3: every line that splits into fewer than 7 comma-separated fields
makes `parseRow` return the invalid-row error in both variants, and the
scanner step of `processFile` writes no CSV row for it. -/
theorem short_row_yields_invalid_row_error (line : String) (cutoff : GoTime)
    (h : (goSplitComma line).length < 7) :
    Nesa2csv.parseRow line cutoff = some (Except.error ("invalid row: " ++ line)) ∧
    Nesa2csv.lineStep (fun l => Nesa2csv.parseRow l cutoff) line = some none ∧
    Part000.parseRow line = some (Except.error ("invalid row: " ++ line)) ∧
    Part000.lineStep Part000.parseRow line = some none := by
  have hF : Nesa2csv.parseRow line cutoff = some (Except.error ("invalid row: " ++ line)) := by
    rw [Nesa2csv.parseRow]
    simp only [if_pos h]
  have hN : Part000.parseRow line = some (Except.error ("invalid row: " ++ line)) := by
    rw [Part000.parseRow]
    simp only [if_pos h]
  refine ⟨hF, ?_, hN, ?_⟩
  · rw [Nesa2csv.lineStep]
    by_cases hp : hasPrefixSComma line <;> simp [hp, hF]
  · rw [Part000.lineStep]
    by_cases hp : hasPrefixSComma line <;> simp [hp, hN]

/-- Witness for C3 at the concrete line `"S,1,2"` (3 fields). -/
theorem short_row_yields_invalid_row_error_witness :
    Nesa2csv.parseRow "S,1,2" ⟨2000, 1, 1, 0, 0, 0⟩ =
      some (Except.error ("invalid row: " ++ "S,1,2")) ∧
    Part000.lineStep Part000.parseRow "S,1,2" = some none :=
  ⟨(short_row_yields_invalid_row_error "S,1,2" ⟨2000, 1, 1, 0, 0, 0⟩ (by decide)).1,
   (short_row_yields_invalid_row_error "S,1,2" ⟨2000, 1, 1, 0, 0, 0⟩ (by decide)).2.2.2⟩

/-- Helper: a successful `fields.get? n` bounds `n` by the length. -/
theorem get?_lt_length {α : Type} {l : List α} {n : Nat} {a : α}
    (h : l.get? n = some a) : n < l.length := by
  rcases List.get?_eq_some.mp h with ⟨hlt, _⟩
  exact hlt

/-- Helper: a value delivered by an association-list lookup is among the
stored values. -/
theorem lookup_mem_values {α β : Type} [BEq α] {l : List (α × β)} {k : α} {v : β}
    (h : List.lookup k l = some v) : v ∈ l.map Prod.snd := by
  induction l with
  | nil => simp [List.lookup] at h
  | cons p tl ih =>
    obtain ⟨a, b⟩ := p
    rw [List.lookup] at h
    split at h
    · injection h with h'
      subst h'
      simp
    · simp only [List.map_cons, List.mem_cons]
      exact Or.inr (ih h)

/-- Helper for C7: no parameter name in the filtering variant's table is
the empty string. -/
theorem lookupF_ne_empty (measurementID processingID nm : String)
    (h : Nesa2csv.lookupMeasurement measurementID processingID = some nm) : nm ≠ "" := by
  intro hc
  subst hc
  rw [Nesa2csv.lookupMeasurement] at h
  split at h
  · rename_i pm hpm
    have h1 := lookup_mem_values hpm
    have h2 := lookup_mem_values h
    have hall : ∀ pm ∈ Nesa2csv.measurementMap.map Prod.snd, ¬ ("" ∈ pm.map Prod.snd) := by
      decide
    exact hall pm h1 h2
  · simp at h

/-- Helper for C7: no parameter name in the non-filtering variant's table
is the empty string. -/
theorem lookupN_ne_empty (measurementID processingID nm : String)
    (h : Part000.lookupMeasurement measurementID processingID = some nm) : nm ≠ "" := by
  intro hc
  subst hc
  rw [Part000.lookupMeasurement] at h
  split at h
  · rename_i pm hpm
    have h1 := lookup_mem_values hpm
    have h2 := lookup_mem_values h
    have hall : ∀ pm ∈ Part000.measurementMap.map Prod.snd, ¬ ("" ∈ pm.map Prod.snd) := by
      decide
    exact hall pm h1 h2
  · simp at h

/-- C6: a measurement triple whose measurement ID (or processing ID under
it) is absent from the static table makes the loop iteration store
nothing and raise nothing: the loop result is exactly that of the next
iteration. A name never stored serializes through the Go map read as the
empty string. -/
theorem unknown_measurement_id_contributes_nothing (fields : List String) (i : Nat)
    (values : List (String × String)) (measurementID processingID : String)
    (hm : fields.get? i = some measurementID)
    (hp : fields.get? (i + 1) = some processingID)
    (hu : Nesa2csv.lookupMeasurement measurementID processingID = none) :
    Nesa2csv.loopValues fields i values = Nesa2csv.loopValues fields (i + 3) values ∧
    (∀ param, List.lookup param values = none → mapGetD values param = "") := by
  constructor
  · have hlt : i < fields.length - 1 := by
      have := get?_lt_length hp
      omega
    rw [Nesa2csv.loopValues, dif_pos hlt, hm, hp]
    dsimp only
    rw [hu]
    simp
  · intro param hnone
    rw [mapGetD, hnone]
    rfl

/-- Witness for C6: in `"S,1,2,3,4,5,6,2023,99,2,5.0"` the measurement ID
`99` is unknown, so the iteration at index 8 stores nothing. -/
theorem unknown_measurement_id_contributes_nothing_witness :
    Nesa2csv.loopValues ["S", "1", "2", "3", "4", "5", "6", "2023", "99", "2", "5.0"] 8 [] =
      Nesa2csv.loopValues ["S", "1", "2", "3", "4", "5", "6", "2023", "99", "2", "5.0"] 11 [] :=
  (unknown_measurement_id_contributes_nothing
    ["S", "1", "2", "3", "4", "5", "6", "2023", "99", "2", "5.0"] 8 [] "99" "2"
    (by decide) (by decide) (by decide)).1

/-- C7: on a recognized triple whose value field is the literal `*`, the
filtering variant stores the empty string while the non-filtering variant
stores `*` verbatim; and a field stored as `""` reads back through the Go
map exactly like a field that was never stored. -/
theorem star_value_normalized_only_in_filtering_variant (fields : List String) (i : Nat)
    (values : List (String × String)) (measurementID processingID nm : String)
    (hm : fields.get? i = some measurementID)
    (hp : fields.get? (i + 1) = some processingID)
    (hv : fields.get? (i + 2) = some "*") :
    (Nesa2csv.lookupMeasurement measurementID processingID = some nm →
      Nesa2csv.loopValues fields i values =
        Nesa2csv.loopValues fields (i + 3) ((nm, "") :: values)) ∧
    (Part000.lookupMeasurement measurementID processingID = some nm →
      Part000.loopValues fields i values =
        Part000.loopValues fields (i + 3) ((nm, "*") :: values)) ∧
    mapGetD ((nm, "") :: values) nm = mapGetD [] nm := by
  have h2 : i + 2 < fields.length := get?_lt_length hv
  have hlt : i < fields.length - 1 := by omega
  refine ⟨fun hlook => ?_, fun hlook => ?_, ?_⟩
  · rw [Nesa2csv.loopValues, dif_pos hlt, hm, hp]
    dsimp only
    rw [hlook]
    rw [Option.getD_some, if_pos ⟨lookupF_ne_empty _ _ _ hlook, h2⟩, hv]
    simp
  · rw [Part000.loopValues, dif_pos hlt, hm, hp]
    dsimp only
    rw [hlook]
    rw [Option.getD_some, if_pos ⟨lookupN_ne_empty _ _ _ hlook, h2⟩, hv]
  · simp [mapGetD, List.lookup]

/-- Witness for C7 at fields `[.., "1", "2", "*"]` from index 8:
measurement ID `1` with processing ID `2` resolves to `Temperature_Avg`
in both variants. -/
theorem star_value_normalized_only_in_filtering_variant_witness :
    Nesa2csv.loopValues ["S", "1", "2", "3", "4", "5", "6", "2023", "1", "2", "*"] 8 [] =
      Nesa2csv.loopValues ["S", "1", "2", "3", "4", "5", "6", "2023", "1", "2", "*"] 11
        [("Temperature_Avg", "")] ∧
    Part000.loopValues ["S", "1", "2", "3", "4", "5", "6", "2023", "1", "2", "*"] 8 [] =
      Part000.loopValues ["S", "1", "2", "3", "4", "5", "6", "2023", "1", "2", "*"] 11
        [("Temperature_Avg", "*")] :=
  ⟨(star_value_normalized_only_in_filtering_variant
      ["S", "1", "2", "3", "4", "5", "6", "2023", "1", "2", "*"] 8 [] "1" "2" "Temperature_Avg"
      (by decide) (by decide) (by decide)).1 (by decide),
   (star_value_normalized_only_in_filtering_variant
      ["S", "1", "2", "3", "4", "5", "6", "2023", "1", "2", "*"] 8 [] "1" "2" "Temperature_Avg"
      (by decide) (by decide) (by decide)).2.1 (by decide)⟩

/-- Helper for C9: the filtering variant's measurement loop never panics,
whatever the field list and start index. -/
theorem loopF_total (n : Nat) :
    ∀ (fields : List String) (i : Nat) (values : List (String × String)),
      fields.length - i ≤ n → (Nesa2csv.loopValues fields i values).isSome = true := by
  induction n with
  | zero =>
    intro fields i values hn
    rw [Nesa2csv.loopValues, dif_neg (by omega)]
    rfl
  | succ n ih =>
    intro fields i values hn
    by_cases hlt : i < fields.length - 1
    · have h1 : i < fields.length := by omega
      have h2 : i + 1 < fields.length := by omega
      rw [Nesa2csv.loopValues, dif_pos hlt, List.get?_eq_get h1, List.get?_eq_get h2]
      dsimp only
      split
      · rename_i hg
        rw [List.get?_eq_get hg.2]
        exact ih fields (i + 3) _ (by omega)
      · exact ih fields (i + 3) values (by omega)
    · rw [Nesa2csv.loopValues, dif_neg hlt]
      rfl

/-- Helper for C9: the non-filtering variant's measurement loop never
panics. -/
theorem loopN_total (n : Nat) :
    ∀ (fields : List String) (i : Nat) (values : List (String × String)),
      fields.length - i ≤ n → (Part000.loopValues fields i values).isSome = true := by
  induction n with
  | zero =>
    intro fields i values hn
    rw [Part000.loopValues, dif_neg (by omega)]
    rfl
  | succ n ih =>
    intro fields i values hn
    by_cases hlt : i < fields.length - 1
    · have h1 : i < fields.length := by omega
      have h2 : i + 1 < fields.length := by omega
      rw [Part000.loopValues, dif_pos hlt, List.get?_eq_get h1, List.get?_eq_get h2]
      dsimp only
      split
      · rename_i hg
        rw [List.get?_eq_get hg.2]
        exact ih fields (i + 3) _ (by omega)
      · exact ih fields (i + 3) values (by omega)
    · rw [Part000.loopValues, dif_neg hlt]
      rfl

/-- Helper for C9: an iteration without a value slot (`i + 2` out of
range) stores nothing and the loop terminates with the state unchanged. -/
theorem loopF_skip_trailing (fields : List String) (i : Nat)
    (values : List (String × String)) (h : ¬ i + 2 < fields.length) :
    Nesa2csv.loopValues fields i values = some values := by
  by_cases hlt : i < fields.length - 1
  · have h1 : i < fields.length := by omega
    have h2 : i + 1 < fields.length := by omega
    rw [Nesa2csv.loopValues, dif_pos hlt, List.get?_eq_get h1, List.get?_eq_get h2]
    dsimp only
    rw [if_neg (fun hc => h hc.2)]
    rw [Nesa2csv.loopValues, dif_neg (by omega)]
  · rw [Nesa2csv.loopValues, dif_neg hlt]

/-- Helper for C9: same for the non-filtering variant. -/
theorem loopN_skip_trailing (fields : List String) (i : Nat)
    (values : List (String × String)) (h : ¬ i + 2 < fields.length) :
    Part000.loopValues fields i values = some values := by
  by_cases hlt : i < fields.length - 1
  · have h1 : i < fields.length := by omega
    have h2 : i + 1 < fields.length := by omega
    rw [Part000.loopValues, dif_pos hlt, List.get?_eq_get h1, List.get?_eq_get h2]
    dsimp only
    rw [if_neg (fun hc => h hc.2)]
    rw [Part000.loopValues, dif_neg (by omega)]
  · rw [Part000.loopValues, dif_neg hlt]

/-- C9: the stride-3 measurement loop of both variants never performs an
out-of-bounds access (it never panics, for any field list and start
index), and a trailing incomplete group — one with no value slot before
the end of the field list — contributes nothing to the values map. -/
theorem measurement_loop_in_bounds (fields : List String) (i : Nat)
    (values : List (String × String)) :
    (Nesa2csv.loopValues fields i values).isSome = true ∧
    (Part000.loopValues fields i values).isSome = true ∧
    (¬ i + 2 < fields.length →
      Nesa2csv.loopValues fields i values = some values ∧
      Part000.loopValues fields i values = some values) :=
  ⟨loopF_total (fields.length - i) fields i values le_rfl,
   loopN_total (fields.length - i) fields i values le_rfl,
   fun h => ⟨loopF_skip_trailing fields i values h, loopN_skip_trailing fields i values h⟩⟩

/-- Witness for C9: a trailing group with only a measurement ID (9
fields) and one with measurement and processing ID but no value (10
fields) both leave the values map empty and cause no panic. -/
theorem measurement_loop_in_bounds_witness :
    Nesa2csv.loopValues ["S", "1", "2", "3", "4", "5", "6", "2023", "1"] 8 [] = some [] ∧
    Part000.loopValues ["S", "1", "2", "3", "4", "5", "6", "2023", "1", "2"] 8 [] = some [] :=
  ⟨((measurement_loop_in_bounds ["S", "1", "2", "3", "4", "5", "6", "2023", "1"] 8 []).2.2
      (by decide)).1,
   ((measurement_loop_in_bounds ["S", "1", "2", "3", "4", "5", "6", "2023", "1", "2"] 8 []).2.2
      (by decide)).2⟩

/-- Helper for C4: on a line with at least 8 fields, `parseRow`'s
internally assembled timestamp string is `assembleTimestamp` of the split
fields, and `parseRow` dispatches on its parse result. -/
theorem parseRow_timestamp_dispatch (line : String) (cutoff : GoTime)
    (h8 : 8 ≤ (goSplitComma line).length) :
    Nesa2csv.parseRow line cutoff =
      (match goTimeParse (assembleTimestamp (goSplitComma line)) with
       | none => some (Except.error ("invalid timestamp: " ++ assembleTimestamp (goSplitComma line)))
       | some recordTime =>
         if recordTime.before cutoff then
           some (Except.ok { StationID := "", Timestamp := "", Values := [] })
         else
           match Nesa2csv.loopValues (goSplitComma line) 8 [] with
           | none => none
           | some values =>
             some (Except.ok { StationID := trimLeftZeros ((goSplitComma line).getD 1 ""),
                               Timestamp := assembleTimestamp (goSplitComma line),
                               Values := values })) := by
  have h7 : 7 < (goSplitComma line).length := by omega
  have hy : (goSplitComma line).get? 7 = some ((goSplitComma line).getD 7 "") := by
    rw [List.get?_eq_get h7]
    rw [List.getD_eq_getElem _ _ h7]
    rfl
  rw [Nesa2csv.parseRow]
  rw [if_neg (by omega)]
  rw [hy]
  rfl

/-- C4: in the filtering variant, on a line with at least 8 fields, an
assembled timestamp that does not parse under the exact layout yields the
invalid-timestamp error, and a parsed timestamp strictly before the
cutoff yields the too-old sentinel (a record with empty `Timestamp`) with
no error, which the scanner step skips silently, writing no CSV row. -/
theorem invalid_timestamp_error_and_cutoff_skip (line : String) (cutoff : GoTime)
    (h8 : 8 ≤ (goSplitComma line).length) :
    (goTimeParse (assembleTimestamp (goSplitComma line)) = none →
      Nesa2csv.parseRow line cutoff =
        some (Except.error ("invalid timestamp: " ++ assembleTimestamp (goSplitComma line)))) ∧
    (∀ t, goTimeParse (assembleTimestamp (goSplitComma line)) = some t →
      t.before cutoff = true →
      Nesa2csv.parseRow line cutoff =
        some (Except.ok { StationID := "", Timestamp := "", Values := [] }) ∧
      Nesa2csv.lineStep (fun l => Nesa2csv.parseRow l cutoff) line = some none) := by
  constructor
  · intro hn
    rw [parseRow_timestamp_dispatch line cutoff h8, hn]
  · intro t ht hb
    have hp : Nesa2csv.parseRow line cutoff =
        some (Except.ok { StationID := "", Timestamp := "", Values := [] }) := by
      rw [parseRow_timestamp_dispatch line cutoff h8, ht]
      dsimp only
      simp [hb]
    refine ⟨hp, ?_⟩
    rw [Nesa2csv.lineStep]
    by_cases hpre : hasPrefixSComma line <;> simp [hpre, hp]

/-- Witness for C4: month 13 fails the parse with the invalid-timestamp
error; a 2023 record against a 2024 cutoff returns the sentinel. -/
theorem invalid_timestamp_error_and_cutoff_skip_witness :
    Nesa2csv.parseRow "S,1,2,3,4,5,13,2023" ⟨2000, 1, 1, 0, 0, 0⟩ =
      some (Except.error "invalid timestamp: 2023-13-05T02:03:04") ∧
    Nesa2csv.parseRow "S,1,2,3,4,5,6,2023" ⟨2024, 1, 1, 0, 0, 0⟩ =
      some (Except.ok { StationID := "", Timestamp := "", Values := [] }) :=
  ⟨(invalid_timestamp_error_and_cutoff_skip "S,1,2,3,4,5,13,2023" ⟨2000, 1, 1, 0, 0, 0⟩
      (by decide)).1 (by decide),
   ((invalid_timestamp_error_and_cutoff_skip "S,1,2,3,4,5,6,2023" ⟨2024, 1, 1, 0, 0, 0⟩
      (by decide)).2 ⟨2023, 6, 5, 2, 3, 4⟩ (by decide) (by decide)).1⟩

/-- C5: the worked example `S,0012,9,5,0,15,6,2023,1,2,21.5` resolves in
both variants to station ID `12` (leading zeros stripped) and timestamp
`2023-06-15T09:05:00` (fields 2..7 zero-padded and assembled as
year-month-dayThour:minute:second). -/
theorem example_row_station_and_timestamp :
    (∃ r, Nesa2csv.parseRow "S,0012,9,5,0,15,6,2023,1,2,21.5" ⟨2000, 1, 1, 0, 0, 0⟩ =
        some (Except.ok r) ∧ r.StationID = "12" ∧ r.Timestamp = "2023-06-15T09:05:00") ∧
    (∃ r, Part000.parseRow "S,0012,9,5,0,15,6,2023,1,2,21.5" =
        some (Except.ok r) ∧ r.StationID = "12" ∧ r.Timestamp = "2023-06-15T09:05:00") := by
  have hs : goSplitComma "S,0012,9,5,0,15,6,2023,1,2,21.5" =
      ["S", "0012", "9", "5", "0", "15", "6", "2023", "1", "2", "21.5"] := by decide
  constructor
  · have hl : Nesa2csv.loopValues ["S", "0012", "9", "5", "0", "15", "6", "2023", "1", "2", "21.5"] 8 [] =
        some [("Temperature_Avg", "21.5")] := by
      rw [Nesa2csv.loopValues]
      norm_num [Nesa2csv.lookupMeasurement, Nesa2csv.measurementMap, List.lookup]
      rw [if_neg (by decide : ¬ ("Temperature_Avg" : String) = ""),
          if_neg (by decide : ¬ ("21.5" : String) = "*")]
      rw [Nesa2csv.loopValues]
      norm_num
    refine ⟨{ StationID := "12", Timestamp := "2023-06-15T09:05:00",
              Values := [("Temperature_Avg", "21.5")] }, ?_, rfl, rfl⟩
    rw [Nesa2csv.parseRow]
    simp only [hs, hl]
    decide
  · have hl : Part000.loopValues ["S", "0012", "9", "5", "0", "15", "6", "2023", "1", "2", "21.5"] 8 [] =
        some [("Temperature_Avg", "21.5")] := by
      rw [Part000.loopValues]
      norm_num [Part000.lookupMeasurement, Part000.measurementMap, List.lookup]
      rw [if_neg (by decide : ¬ ("Temperature_Avg" : String) = "")]
      rw [Part000.loopValues]
      norm_num
    refine ⟨{ StationID := "12", Timestamp := "2023-06-15T09:05:00",
              Values := [("Temperature_Avg", "21.5")] }, ?_, rfl, rfl⟩
    rw [Part000.parseRow]
    simp only [hs, hl]
    decide

/-- C1 (code bug): in the filtering variant `processFile` receives the
`writeHeader` flag but never writes a header, so a run over one file with
one valid data line outputs exactly that data row and never the header
row `station_id, timestamp, <required columns>`. The claim, like the
spec, requires the header exactly once per run — the non-filtering
variant does exactly that on the analogous input (third conjunct). -/
theorem filtering_variant_never_writes_header :
    Nesa2csv.runFiles ⟨2000, 1, 1, 0, 0, 0⟩ [some { lines := ["S,1,2,3,4,5,6,2023"], readErr := false }] =
      some [["1", "2023-06-05T02:03:04", "", "", "", "", "", "", "", "", "", "", ""]] ∧
    ("station_id" :: "timestamp" :: Nesa2csv.requiredMeasurements) ∉
      [["1", "2023-06-05T02:03:04", "", "", "", "", "", "", "", "", "", "", ""]] ∧
    Part000.runFiles [some { lines := ["S,1,2,3,4,5,6,2023"], readErr := false }] =
      some [Part000.headerRow, ["1", "2023-06-05T02:03:04", "", "", "", "", ""]] := by
  have hs : goSplitComma "S,1,2,3,4,5,6,2023" = ["S", "1", "2", "3", "4", "5", "6", "2023"] := by
    decide
  refine ⟨?_, by decide, ?_⟩
  · have hl : Nesa2csv.loopValues ["S", "1", "2", "3", "4", "5", "6", "2023"] 8 [] = some [] := by
      rw [Nesa2csv.loopValues]
      norm_num
    have hp : Nesa2csv.parseRow "S,1,2,3,4,5,6,2023" ⟨2000, 1, 1, 0, 0, 0⟩ =
        some (Except.ok { StationID := "1", Timestamp := "2023-06-05T02:03:04", Values := [] }) := by
      rw [Nesa2csv.parseRow]
      simp only [hs, hl]
      decide
    simp only [Nesa2csv.runFiles, Nesa2csv.walkFiles, Nesa2csv.processFile, Nesa2csv.scanLines,
      Nesa2csv.lineStep, hp]
    decide
  · have hl : Part000.loopValues ["S", "1", "2", "3", "4", "5", "6", "2023"] 8 [] = some [] := by
      rw [Part000.loopValues]
      norm_num
    have hp : Part000.parseRow "S,1,2,3,4,5,6,2023" =
        some (Except.ok { StationID := "1", Timestamp := "2023-06-05T02:03:04", Values := [] }) := by
      rw [Part000.parseRow]
      simp only [hs, hl]
      decide
    simp only [Part000.runFiles, Part000.walkFiles, Part000.processFile, Part000.scanLines,
      Part000.lineStep, hp]
    decide
